import Mathlib

/-!
Verification of the rivergraphs gage-acquisition core.

This file gives a shallow embedding, in Lean 4, of the parts of
`app/dl_graphs.py`, `app/gageman.py` and `app/util.py` that the verified
properties talk about, followed by theorems settling those properties.

Conventions of the embedding:
  * A stored data-file line `value,date,time` is represented as its list of
    comma-separated fields (`Line := List String`), exactly the result of
    Python's `line.strip().split(',')`.  All writers in the source emit
    comma-free fields, on which this representation is faithful (a raw
    string line and its field list determine each other).
  * Python `float` values are represented as `Rat` (the source only ever
    handles finite decimal values; float rounding is immaterial at the
    scale of gage readings and is not modelled).
  * Timestamps in the pandas-based virtual-gage recipes are an integer
    count of minutes (inputs) or hours (after `groupby(freq='H')`);
    pandas `NaN` is `Option.none`.
  * String helpers (`split`, numeric parsing) are re-implemented over
    `String.data` so that every definition evaluates inside the kernel;
    they agree with the Python originals on the single-character
    separators the source uses.
-/

unseal Rat.add Rat.mul Rat.inv Rat.sub Rat.ofScientific

namespace Rivergraphs

/-! ## Python string and number primitives -/

/-- Splits a character list at every occurrence of `c`, like Python's
`str.split(c)` for a single-character separator: `"".split(c) == ['']`,
and separators at the ends produce empty chunks. -/
def splitOnChar (c : Char) : List Char → List (List Char)
  | [] => [[]]
  | x :: xs =>
    let r := splitOnChar c xs
    if x = c then [] :: r
    else
      match r with
      | [] => [[x]]
      | h :: t => (x :: h) :: t

/-- Python `s.split(c)` for a one-character separator `c`. -/
def splitS (c : Char) (s : String) : List String :=
  (splitOnChar c s.data).map (fun l => ⟨l⟩)

/-- Value of a decimal digit character, if it is one. -/
def digitVal? (c : Char) : Option Nat :=
  if 48 ≤ c.toNat ∧ c.toNat ≤ 57 then some (c.toNat - 48) else none

/-- Reads a digit string left to right, accumulating the value. -/
def digitsToNatAux : List Char → Nat → Option Nat
  | [], n => some n
  | c :: cs, n =>
    match digitVal? c with
    | some d => digitsToNatAux cs (n * 10 + d)
    | none => none

/-- Parses a nonempty all-digit chunk as a natural number. -/
def chunkNat? (l : List Char) : Option Nat :=
  match l with
  | [] => none
  | _ => digitsToNatAux l 0

/-- Parses a nonempty all-digit string as a natural number. -/
def strToNat? (s : String) : Option Nat := chunkNat? s.data

/-- Unsigned part of Python `float(s)`: digits with an optional single
decimal point (`"12"`, `"12.5"`, `"12."`, `".5"`).  Exponents and the
`inf`/`nan` spellings, which never occur in the data the source parses,
are not modelled and simply fail. -/
def pyFloatCore? (cs : List Char) : Option Rat :=
  match splitOnChar '.' cs with
  | [a] => (chunkNat? a).map (fun n => (n : Rat))
  | [a, b] =>
    match chunkNat? a, chunkNat? b with
    | some n, some f => some ((n : Rat) + (f : Rat) / (10 : Rat) ^ b.length)
    | some n, none => if b.isEmpty then some ((n : Rat)) else none
    | none, some f => if a.isEmpty then some ((f : Rat) / (10 : Rat) ^ b.length) else none
    | none, none => none
  | _ => none

/-- Python `float(s)`, as a partial decimal parser into `Rat`. -/
def pyFloat? (s : String) : Option Rat :=
  match s.data with
  | [] => none
  | c :: rest =>
    if c = '-' then (pyFloatCore? rest).map (fun q => -q)
    else if c = '+' then pyFloatCore? rest
    else pyFloatCore? (c :: rest)

/-- Embedding of `util.is_float`: true when `float(s)` succeeds.  The
`s is None` guard of the original is absorbed by the callers passing a
string. -/
def is_float (s : String) : Bool := (pyFloat? s).isSome

/-- Python `int(x)` on a float: truncation toward zero. -/
def pyInt (q : Rat) : Int := if 0 ≤ q then ⌊q⌋ else ⌈q⌉

/-- Digit character for a value below ten. -/
def digitChar (n : Nat) : Char := Char.ofNat (48 + n)

/-- Decimal digits of a natural number (fuel-bounded so the definition is
structural; 30 digits are far beyond any value the source handles). -/
def natToStrAux : Nat → Nat → List Char
  | 0, _ => []
  | fuel + 1, n =>
    if n < 10 then [digitChar n]
    else natToStrAux fuel (n / 10) ++ [digitChar (n % 10)]

/-- Decimal rendering of a natural number. -/
def natToStr (n : Nat) : String := ⟨natToStrAux 30 n⟩

/-- Fractional digits of a rational in `[0, 1)`, most significant first,
stopping when the remainder is zero (fuel-bounded). -/
def fracDigitsAux : Nat → Rat → List Char
  | 0, _ => []
  | fuel + 1, q =>
    if q = 0 then []
    else
      let q10 := q * 10
      digitChar (⌊q10⌋).toNat :: fracDigitsAux fuel (q10 - ⌊q10⌋)

/-- Python `f-string` rendering of a nonnegative float: integer part,
point, then fractional digits, with a mandatory `0` when the value is
integral (`13.0`, `12.5`). -/
def floatReprNN (q : Rat) : String :=
  let ds := fracDigitsAux 30 (q - ⌊q⌋)
  natToStr (⌊q⌋).toNat ++ "." ++ (if ds.isEmpty then "0" else ⟨ds⟩)

/-- Python `f-string` rendering of a float value, signs included. -/
def floatRepr (q : Rat) : String :=
  if q < 0 then "-" ++ floatReprNN (-q) else floatReprNN q

/-! ## Data-file lines and timestamps -/

/-- A stored data-file record, as its list of comma-separated fields
(`value,date,time`); this is exactly what `line.strip().split(',')`
yields in the source, and all writers emit comma-free fields. -/
abbrev Line := List String

/-- Renders a record back to its on-disk text (the inverse of splitting
on commas, for comma-free fields). -/
def renderLine : Line → String
  | [] => ""
  | [x] => x
  | x :: xs => x ++ "," ++ renderLine xs

/-- A wall-clock timestamp as parsed by
`datetime.strptime('%Y-%m-%d %H:%M:%S')`. -/
structure DT where
  y : Nat
  mo : Nat
  d : Nat
  h : Nat
  mi : Nat
  s : Nat
deriving DecidableEq

/-- Embedding of `datetime.strptime(f'{date} {time}', '%Y-%m-%d %H:%M:%S')`:
parses the two fields, failing (`none` models the raised `ValueError`) when
the shape or the field ranges are wrong.  Day-of-month is only checked
against 31; the source's per-month upper bounds never matter for the data
at hand. -/
def strptimeDT? (ds ts : String) : Option DT := do
  match splitS '-' ds, splitS ':' ts with
  | [ys, mos, dds], [hs, mis, ss] =>
    let y ← strToNat? ys
    let mo ← strToNat? mos
    let d ← strToNat? dds
    let h ← strToNat? hs
    let mi ← strToNat? mis
    let s ← strToNat? ss
    if 1 ≤ mo ∧ mo ≤ 12 ∧ 1 ≤ d ∧ d ≤ 31 ∧ h ≤ 23 ∧ mi ≤ 59 ∧ s ≤ 59 then
      pure ⟨y, mo, d, h, mi, s⟩
    else none
  | _, _ => none

/-- Total order key for `DT` values (strictly monotone in each field, so
it orders timestamps chronologically). -/
def dtKey (d : DT) : Nat :=
  ((((d.y * 12 + d.mo) * 31 + d.d) * 24 + d.h) * 60 + d.mi) * 60 + d.s

/-- Chronological key of a stored record's date/time fields. -/
def lineKey? (l : Line) : Option Nat :=
  (strptimeDT? (l.getD 1 "") (l.getD 2 "")).map dtKey

/-! ## `gageman.Gage` -/

/-- Embedding of the `units` default in `Gage.__init__`: a construction
with no units specified gets `"cfs"`. -/
def initUnits (units : Option String) : String :=
  match units with
  | none => "cfs"
  | some u => u

/-- Embedding of `Gage.round_val`: discharge and storage are truncated
with Python `int()`, stages in feet are returned unchanged. -/
def round_val (units : String) (val : Rat) : Rat :=
  if units = "cfs" ∨ units = "ac-ft" then ((pyInt val : Int) : Rat) else val

/-- Result of `Gage._get_q`.  `noFile` stands for the `(9999, 9999, 9999)`
missing-file sentinel, `emptyFile` for the `(666, 666, 666)`
`UnboundLocalError` sentinel, `fieldsBad` for the `IndexError` handler's
`(9999, 9999, 9999)`, and `ok q date time` for a parsed last line, with
`q = none` standing for the string `"Error"` on a non-numeric value
field. -/
inductive LatestResult where
  | noFile
  | emptyFile
  | fieldsBad
  | ok (q : Option Rat) (qDate qTime : String)
deriving DecidableEq

/-- Embedding of `Gage._get_q`: reads the last line of the gage's data
file (`none` models a missing file), splits it into fields, and returns
the unit-rounded value with the date and time fields verbatim. -/
def get_q (units : String) (file : Option (List Line)) : LatestResult :=
  match file with
  | none => .noFile
  | some lines =>
    match lines.getLast? with
    | none => .emptyFile
    | some fields =>
      if fields.length < 3 then .fieldsBad
      else
        match pyFloat? (fields.headD "") with
        | some v => .ok (some (round_val units v)) (fields.getD 1 "") (fields.getD 2 "")
        | none => .ok none (fields.getD 1 "") (fields.getD 2 "")

/-- Maps a partial function over a list, failing when any element fails
(the `Option` analogue of a loop that can raise). -/
def mapOption? (f : α → Option β) : List α → Option (List β)
  | [] => some []
  | x :: xs =>
    match f x, mapOption? f xs with
    | some y, some ys => some (y :: ys)
    | _, _ => none

/-- Embedding of the `Gage.series` property, i.e. of
`pd.read_csv(..., names=['value','date','time'])` followed by
`pd.to_datetime` on the date/time columns.  `read_csv` leaves the whole
value column as raw strings (`Sum.inl`) as soon as one entry fails
numeric inference, and parses it to floats (`Sum.inr`) otherwise;
`to_datetime` raises (`none`) when any date/time pair is malformed. -/
def gage_series (file : List Line) : Option (List (DT × (String ⊕ Rat))) :=
  match mapOption? (fun l => strptimeDT? (l.getD 1 "") (l.getD 2 "")) file with
  | none => none
  | some ds =>
    let allNum := file.all (fun l => (pyFloat? (l.headD "")).isSome)
    let vals : List (String ⊕ Rat) :=
      if allNum then file.map (fun l => Sum.inr ((pyFloat? (l.headD "")).getD 0))
      else file.map (fun l => Sum.inl (l.headD ""))
    some (ds.zip vals)

/-! ## `dl_graphs` constants -/

/-- Days shown on a hydrograph (`PLOT_DAYS`). -/
def PLOT_DAYS : Nat := 7

/-- Headroom factor above the maximum plotted value
(`GRAPH_TOP_BUFFER = 1.05`). -/
def GRAPH_TOP_BUFFER : Rat := 105 / 100

/-! ## `dl_graphs.get_dwr_graph` and `dl_graphs.get_usgs_gage` stores -/

/-- One entry of the DWR REST response's `ResultList`. -/
structure DwrEntry where
  measValue : Rat
  measDateTime : String
deriving DecidableEq

/-- Record written by `get_dwr_graph` for one entry: the f-string
rendering of `measValue` and the two halves of `measDateTime` split on
`'T'` (a timestamp without `'T'` would raise in Python and never occurs
in the API's data; here the missing half defaults to `""`). -/
def dwrLine (e : DwrEntry) : Line :=
  [floatRepr e.measValue,
   (splitS 'T' e.measDateTime).getD 0 "",
   (splitS 'T' e.measDateTime).getD 1 ""]

/-- Embedding of the data-file write in `get_dwr_graph`: the file is
opened with mode `'wt'`, so the previous content `prev` is discarded and
the file ends up holding exactly the fetched records, in response
order. -/
def get_dwr_file (prev : Option (List Line)) (results : List DwrEntry) : List Line :=
  results.map dwrLine

/-- One entry of the USGS instantaneous-values JSON (the `value` field is
a string in that API). -/
structure UsgsEntry where
  value : String
  dateTime : String
deriving DecidableEq

/-- Record written by the JSON-API loop of `get_usgs_gage`: date is the
part before `'T'`; time is the part after `'T'`, truncated at the first
`'-'` (timezone offset) and then at the first `'.'` (fractional
seconds). -/
def usgsLine (e : UsgsEntry) : Line :=
  let date := (splitS 'T' e.dateTime).getD 0 ""
  let t1 := (splitS 'T' e.dateTime).getD 1 ""
  let t2 := (splitS '-' t1).getD 0 ""
  [e.value, date, (splitS '.' t2).getD 0 ""]

/-- Embedding of the data-file write in `get_usgs_gage`: like the DWR
one, mode `'wt'` discards the previous content. -/
def get_usgs_file (prev : Option (List Line)) (results : List UsgsEntry) : List Line :=
  results.map usgsLine

/-! ## `dl_graphs.get_prr_gage` -/

/-- Embedding of the store-and-render step of `get_prr_gage`, after the
page has been parsed into the record `data`.  `file = none` means the
data file does not exist yet.  Returns the new file content and whether
`make_graph` re-rendered the image; the overall `none` models the
`UnboundLocalError` crash on an existing but empty file (the last-line
loop leaves `old_data` unbound). -/
def get_prr_update (data : Line) (file : Option (List Line)) :
    Option (List Line × Bool) :=
  match file with
  | none => some ([data], true)
  | some f =>
    match f.getLast? with
    | none => none
    | some old_data =>
      if old_data = data then some (f, false)
      else some (f ++ [data], true)

/-- Embedding of the read-back loop at the end of `get_prr_gage`: every
line's value field is parsed with `float`; a `ValueError` prints one
corrupt-line diagnostic and skips the line; otherwise the date/time
fields are parsed with `strptime`, whose failure raises out of the
function (`none`).  Returns the stages, the timestamps, and how many
corrupt-line diagnostics were printed. -/
def get_prr_readback : List Line → Option (List Rat × List DT × Nat)
  | [] => some ([], [], 0)
  | l :: rest =>
    match pyFloat? (l.headD "") with
    | none =>
      (get_prr_readback rest).map (fun r => (r.1, r.2.1, r.2.2 + 1))
    | some v =>
      match strptimeDT? (l.getD 1 "") (l.getD 2 "") with
      | none => none
      | some ts =>
        (get_prr_readback rest).map (fun r => (v :: r.1, ts :: r.2.1, r.2.2))

/-! ## `dl_graphs.make_graph` -/

/-- Observable outcome of `make_graph`: the points that survive the
seven-day/dirty-data filter, whether the no-data warning was printed,
the y-axis top, and whether `plt.savefig` wrote the image file.
Timestamps are minutes; a `none` value stands for a non-float entry. -/
structure GraphResult where
  qs : List Rat
  tss : List Int
  warned : Bool
  ymax : Rat
  imageWritten : Bool
deriving DecidableEq

/-- Embedding of `make_graph`.  The filter drops points more than
`PLOT_DAYS` days older than the *last* raw timestamp and points whose
value is not a float; the warning is printed exactly when nothing
survives; `plt.savefig` runs unconditionally, so an image file is always
written.  (The `q is None` branch of the source is unreachable after the
`is_float` check and is absorbed by it here.) -/
def make_graph (raw_qs : List (Option Rat)) (raw_tss : List Int) : GraphResult :=
  let delta : Int := (PLOT_DAYS : Int) * 24 * 60
  let lastTs := raw_tss.getLastD 0
  let kept := (raw_qs.zip raw_tss).filter
    (fun p => !(decide (delta < lastTs - p.2)) && p.1.isSome)
  let qs := kept.filterMap (fun p => p.1)
  let tss := kept.map (fun p => p.2)
  let max_q : Rat :=
    match qs with
    | [] => 0
    | h :: t => t.foldl max h
  { qs := qs
    tss := tss
    warned := qs.isEmpty || tss.isEmpty
    ymax := max_q * GRAPH_TOP_BUFFER
    imageWritten := true }

/-! ## pandas series primitives

A real gage's stored series is a list of `(timestamp, value)` pairs; a
series produced by pandas arithmetic may hold `NaN` values, modelled as
`Option.none`.  pandas indexes resulting from alignment are the sorted
union of the operand indexes; alignment is by first-match lookup, which
coincides with pandas on duplicate-free indexes (pandas raises on
duplicate labels). -/

/-- Sorted duplicate-free list of timestamps (a pandas index). -/
def sortedDedup (l : List Int) : List Int :=
  (List.insertionSort (fun a b => a ≤ b) l).dedup

/-- Embedding of `pandas.Series.median` (`skipna` handled by the caller):
the middle element of the sorted values, or the mean of the two middle
elements; `none` for an empty list models the `NaN` median. -/
def median (l : List Rat) : Option Rat :=
  if l.isEmpty then none
  else
    let s := List.insertionSort (fun a b => a ≤ b) l
    let n := l.length
    if n % 2 = 1 then some (s.getD (n / 2) 0)
    else some ((s.getD (n / 2 - 1) 0 + s.getD (n / 2) 0) / 2)

/-! ## `dl_graphs.get_nsv_gage` (estimated inflow) -/

/-- Embedding of `series.groupby(pd.Grouper(freq='H')).mean()`: input
timestamps are minutes, output timestamps are hours; each hour present
in the input is mapped to the mean of its values. -/
def hourlyMean (s : List (Int × Rat)) : List (Int × Rat) :=
  (sortedDedup (s.map (fun p => Int.fdiv p.1 60))).map
    (fun h =>
      let vs := (s.filter (fun p => Int.fdiv p.1 60 = h)).map (fun p => p.2)
      (h, vs.sum / (vs.length : Rat)))

/-- Embedding of `Series.diff()`: the first element becomes `NaN`, every
later element the difference with its predecessor. -/
def diffSeries : List (Int × Rat) → List (Int × Option Rat)
  | [] => []
  | p :: rest =>
    (p.1, none) :: (rest.zip (p :: rest)).map
      (fun q => (q.1.1, some (q.1.2 - q.2.2)))

/-- Embedding of `braf.diff() * 12 + pgq`: outer-join alignment on the
sorted union of the two indexes, `NaN` (`none`) wherever either side is
missing or already `NaN`. -/
def alignAdd (a : List (Int × Option Rat)) (b : List (Int × Rat)) :
    List (Int × Option Rat) :=
  (sortedDedup (a.map (fun p => p.1) ++ b.map (fun p => p.1))).map
    (fun t =>
      (t, match List.lookup t a, List.lookup t b with
          | some (some d), some p => some (d * 12 + p)
          | _, _ => none))

/-- The estimated-inflow series after the seven-day clip
(`nsvq[nsvq.index > dt.today() - timedelta(days=PLOT_DAYS)]`), with
`today` the run time in hours. -/
def nsvClipped (pgq braf : List (Int × Rat)) (today : Int) :
    List (Int × Option Rat) :=
  (alignAdd (diffSeries (hourlyMean braf)) (hourlyMean pgq)).filter
    (fun p => today - (PLOT_DAYS : Int) * 24 < p.1)

/-- The median `nsvq.median()` taken by the outlier filter: the median of
the clipped series, `NaN` values skipped. -/
def nsvMedian (pgq braf : List (Int × Rat)) (today : Int) : Option Rat :=
  median ((nsvClipped pgq braf today).filterMap (fun p => p.2))

/-- Embedding of the series computed by `get_nsv_gage`: hourly means of
both inputs, first difference of the reservoir series times 12 plus the
downstream flow, clipped to the last seven days before `today`, then
`nsvq[nsvq < nsvq.median() * 4]` (a `NaN` compares false and is dropped;
a `NaN` median drops everything). -/
def get_nsv_series (pgq braf : List (Int × Rat)) (today : Int) :
    List (Int × Rat) :=
  match nsvMedian pgq braf today with
  | none => []
  | some m =>
    (nsvClipped pgq braf today).filterMap
      (fun p => p.2.bind (fun v => if v < 4 * m then some (p.1, v) else none))

/-! ## `dl_graphs.get_foxton_gage` / `get_wildcat_gage` (difference) -/

/-- Pointwise subtraction at one timestamp: defined only where both
series have the timestamp (elsewhere the pandas result is `NaN` and is
removed by `dropna`). -/
def subAt (a b : List (Int × Rat)) (t : Int) : Option (Int × Rat) :=
  match List.lookup t a, List.lookup t b with
  | some x, some y => some (t, x - y)
  | _, _ => none

/-- Embedding of `(seriesA - seriesB).dropna()`, the first step of
`get_foxton_gage` and `get_wildcat_gage`: align on the sorted union of
the indexes, subtract, keep only shared timestamps. -/
def difference (a b : List (Int × Rat)) : List (Int × Rat) :=
  (sortedDedup (a.map (fun p => p.1) ++ b.map (fun p => p.1))).filterMap
    (subAt a b)

/-- Timestamp lists with pairwise-distinct labels, the domain on which
lookup-based alignment agrees with pandas. -/
abbrev nodupKeys (s : List (Int × Rat)) : Prop := (s.map (fun p => p.1)).Nodup

/-! ## `dl_graphs.main` (batch runner) -/

/-- Outcome of one call to a gage's getter: success, the retryable
`FailedImageAddr` raised by the USGS scraper, or any other exception. -/
inductive Outcome where
  | ok
  | imgErr
  | othErr
deriving DecidableEq

/-- One gage in a batch run, with the outcomes its getter would produce
on a first and on a second call. -/
structure GageRun where
  gtype : String
  gid : String
  o1 : Outcome
  o2 : Outcome
deriving DecidableEq

/-- Per-gage terminal state of the runner. -/
inductive Status where
  | stored
  | skipped
deriving DecidableEq

/-- Whether `main` knows a getter for this gage type and id (the final
`else` prints an unknown-gage error and moves on). -/
def knownGetter (t i : String) : Bool :=
  t = "DWR" || t = "PRR" || t = "WYSEO" ||
    (t = "VIRTUAL" && (i = "NSV" || i = "FOXTON" || i = "WILDCAT"))

/-- Embedding of the USGS arm of `main`'s loop: `FailedImageAddr` on the
first call triggers one delayed retry; a second `FailedImageAddr` skips
the gage; any other exception on the first call is caught by the outer
handler and skips; but an exception other than `FailedImageAddr` raised
by the retry call escapes both handlers (`none` = propagates). -/
def stepUSGS (g : GageRun) : Option Status :=
  match g.o1 with
  | .ok => some .stored
  | .othErr => some .skipped
  | .imgErr =>
    match g.o2 with
    | .ok => some .stored
    | .imgErr => some .skipped
    | .othErr => none

/-- Embedding of the non-USGS arm of `main`'s loop: unknown gages are
logged and skipped; in verbose (interactive) mode the getter runs
outside any `try`, so an exception propagates (`none`); from cron every
exception is caught, logged and the gage skipped. -/
def stepOther (verbose : Bool) (g : GageRun) : Option Status :=
  if knownGetter g.gtype g.gid then
    match g.o1 with
    | .ok => some .stored
    | _ => if verbose then none else some .skipped
  else some .skipped

/-- Embedding of `main`'s loop over the gage list: returns the statuses
of the gages processed before any propagating exception, and whether the
batch aborted. -/
def runBatch (verbose : Bool) : List GageRun → List Status × Bool
  | [] => ([], false)
  | g :: rest =>
    match (if g.gtype = "USGS" then stepUSGS g else stepOther verbose g) with
    | none => ([], true)
    | some s =>
      let r := runBatch verbose rest
      (s :: r.1, r.2)

end Rivergraphs

namespace Rivergraphs

/-! ## Claim theorems -/

/-- Claim C10: for units `cfs` or `ac-ft` the latest-reading value policy
is Python `int()` truncation toward zero (witness the two non-integral
conjuncts: 12.6 truncates to 12, not the nearest 13, and -12.6 to -12);
for `feet` the value is returned unchanged; and a gage constructed with
no units specified defaults to `cfs`, hence gets the truncating
policy. -/
theorem round_val_policy (v : Rat) :
    round_val "cfs" v = ((pyInt v : Int) : Rat) ∧
    round_val "ac-ft" v = ((pyInt v : Int) : Rat) ∧
    round_val "feet" v = v ∧
    initUnits none = "cfs" ∧
    round_val (initUnits none) v = ((pyInt v : Int) : Rat) ∧
    pyInt (63 / 5) = 12 ∧ pyInt (-(63 / 5)) = -12 := by
  refine ⟨?_, ?_, ?_, rfl, ?_, by decide, by decide⟩
  · simp [round_val]
  · simp [round_val]
  · simp [round_val]
  · simp [initUnits, round_val]

/-- Claim C4 (counterexample): appending the record `12.5,…` to a `cfs`
gage's file and reading the latest value yields 12, not the appended
12.5 — the round trip is not the identity on the value field. -/
theorem append_latest_cex :
    get_q "cfs" (some [["12.5", "2023-05-01", "07:00:00"]]) =
      .ok (some 12) "2023-05-01" "07:00:00" ∧ (12 : Rat) ≠ 25 / 2 := by
  exact ⟨by decide, by decide⟩

/-- Claim C4 (amended): appending a well-formed record whose value field
parses to `v` and reading `latest()` returns the date and time fields
exactly and the value passed through the unit rounding policy
(`round_val`), for every units setting and every prior file content. -/
theorem append_latest (units : String) (file : List Line)
    (tok d t : String) (v : Rat) (hv : pyFloat? tok = some v) :
    get_q units (some (file ++ [[tok, d, t]])) =
      .ok (some (round_val units v)) d t := by
  simp [get_q, List.getLast?_concat, hv]

/-- Claim C4 (witness): a concrete feet-gage round trip through
`append_latest`, where the policy is the identity and the full triple
comes back unchanged. -/
theorem append_latest_witness :
    get_q "feet" (some [["3.2", "2023-05-01", "07:00:00"]]) =
      .ok (some (16 / 5)) "2023-05-01" "07:00:00" := by
  have h := append_latest "feet" [] "3.2" "2023-05-01" "07:00:00" (16 / 5)
    (by decide)
  simpa [round_val] using h

/-- The DWR `ResultList` of the end-to-end scenario of claim C3. -/
def c3Results : List DwrEntry :=
  [⟨25 / 2, "2023-05-01T07:00:00"⟩, ⟨13, "2023-05-01T08:00:00"⟩]

/-- Claim C3 (counterexample): after the DWR fetch of the scenario
payload the data file holds the lines `12.5,2023-05-01,07:00:00` and
`13.0,2023-05-01,08:00:00` — the raw float renderings, not the
unit-rounded `12,…`/`13,…` lines the claim asserts; rounding happens
only at read time. -/
theorem dwr_scenario_cex :
    (get_dwr_file none c3Results).map renderLine =
      ["12.5,2023-05-01,07:00:00", "13.0,2023-05-01,08:00:00"] ∧
    ["12.5,2023-05-01,07:00:00", "13.0,2023-05-01,08:00:00"] ≠
      ["12,2023-05-01,07:00:00", "13,2023-05-01,08:00:00"] := by
  exact ⟨by decide, by decide⟩

/-- Claim C3 (amended): the scenario's store ends with the two unrounded
lines `12.5,2023-05-01,07:00:00` and `13.0,2023-05-01,08:00:00`, and the
latest-reading accessor — which applies the unit rounding policy at read
time — returns `(13, "2023-05-01", "08:00:00")`. -/
theorem dwr_scenario :
    (get_dwr_file none c3Results).map renderLine =
      ["12.5,2023-05-01,07:00:00", "13.0,2023-05-01,08:00:00"] ∧
    get_q "cfs" (some (get_dwr_file none c3Results)) =
      .ok (some 13) "2023-05-01" "08:00:00" := by
  exact ⟨by decide, by decide⟩

/-- Claim C6: when the parsed rock-report record equals the last stored
line, `get_prr_gage` returns before appending and before re-rendering:
the file is unchanged and no image is written. -/
theorem prr_dedupe_noop (f : List Line) (data : Line)
    (h : f.getLast? = some data) :
    get_prr_update data (some f) = some (f, false) := by
  simp [get_prr_update, h]

/-- Claim C6 (witness): a concrete repeat fetch of the rock report is a
no-op on a one-line file. -/
theorem prr_dedupe_noop_witness :
    get_prr_update ["3.4", "2022-05-31", "07:00:00"]
      (some [["3.4", "2022-05-31", "07:00:00"]]) =
    some ([["3.4", "2022-05-31", "07:00:00"]], false) :=
  prr_dedupe_noop [["3.4", "2022-05-31", "07:00:00"]]
    ["3.4", "2022-05-31", "07:00:00"] rfl

end Rivergraphs

namespace Rivergraphs

/-- A pre-existing stored record used by the claim-C2 counterexample. -/
def c2Old : Line := ["5", "2023-01-01", "00:00:00"]

/-- A DWR response in decreasing time order, as the upstream API is free
to send, used by the claim-C2 counterexample. -/
def c2Results : List DwrEntry :=
  [⟨13, "2023-05-02T08:00:00"⟩, ⟨12, "2023-05-01T07:00:00"⟩]

/-- Claim C2 (counterexample): a DWR fetch over a file already holding a
record replaces the file wholesale — the old record is gone — and the
new records appear in the upstream response order, here with strictly
decreasing timestamps, so the file is neither append-only nor sorted by
the client. -/
theorem dwr_store_cex :
    get_dwr_file (some [c2Old]) c2Results =
      [["13.0", "2023-05-02", "08:00:00"], ["12.0", "2023-05-01", "07:00:00"]] ∧
    c2Old ∉ get_dwr_file (some [c2Old]) c2Results ∧
    (lineKey? ["12.0", "2023-05-01", "07:00:00"]).getD 0 <
      (lineKey? ["13.0", "2023-05-02", "08:00:00"]).getD 0 := by
  exact ⟨by decide, by decide, by decide⟩

/-- Claim C2 (amended): the DWR and USGS acquisition paths open the data
file in truncating `'wt'` mode, so each fetch replaces the file with
exactly the fetched records in upstream order, independent of any
previous content and with no client-side sorting; only the PRR path
appends, one de-duplicated record per fetch. -/
theorem store_replacement (prevD : Option (List Line)) (res : List DwrEntry)
    (prevU : Option (List Line)) (ures : List UsgsEntry)
    (f : List Line) (l data : Line)
    (hl : f.getLast? = some l) (hne : l ≠ data) :
    get_dwr_file prevD res = res.map dwrLine ∧
    get_usgs_file prevU ures = ures.map usgsLine ∧
    get_prr_update data (some f) = some (f ++ [data], true) := by
  refine ⟨rfl, rfl, ?_⟩
  simp [get_prr_update, hl, hne]

/-- Claim C2 (witness): the replacement/append semantics at a concrete
previous file, fetch result and fresh PRR record. -/
theorem store_replacement_witness :
    get_dwr_file (some [c2Old]) c3Results = c3Results.map dwrLine ∧
    get_usgs_file (some [c2Old]) [] = ([] : List UsgsEntry).map usgsLine ∧
    get_prr_update ["3.5", "2022-06-01", "08:00:00"] (some [c2Old]) =
      some ([c2Old, ["3.5", "2022-06-01", "08:00:00"]], true) := by
  have h := store_replacement (some [c2Old]) c3Results (some [c2Old]) []
    [c2Old] c2Old ["3.5", "2022-06-01", "08:00:00"] rfl (by decide)
  simpa using h

/-- Claim C9 (counterexample): rendering a series whose only point has a
non-float value leaves the in-window set empty; the renderer prints the
no-data warning but `plt.savefig` still runs, so an image file is
written — the claim's "writes no image file" does not hold. -/
theorem make_graph_empty_cex :
    (make_graph [none] [0]).qs = [] ∧
    (make_graph [none] [0]).warned = true ∧
    (make_graph [none] [0]).imageWritten = true := by
  exact ⟨by decide, by decide, by decide⟩

/-- Claim C9 (amended): the renderer never raises (it is total on every
input, the empty-maximum case being guarded in the source), always
writes an image file — a blank but well-formed plot when nothing is in
window — and prints the warning whenever the filtered set is empty. -/
theorem make_graph_total (raw_qs : List (Option Rat)) (raw_tss : List Int) :
    (make_graph raw_qs raw_tss).imageWritten = true ∧
    ((make_graph raw_qs raw_tss).qs = [] →
      (make_graph raw_qs raw_tss).warned = true) := by
  refine ⟨rfl, ?_⟩
  intro h
  simp only [make_graph] at h ⊢
  rw [h]
  simp

/-- Claim C9 (witness): the amended renderer contract at the concrete
empty-window input. -/
theorem make_graph_total_witness :
    (make_graph [none] [0]).imageWritten = true ∧
    (make_graph [none] [0]).warned = true :=
  ⟨(make_graph_total [none] [0]).1, (make_graph_total [none] [0]).2 (by decide)⟩

/-- The two-gage cron batch of the claim-C7 counterexample: a USGS gage
whose image link is missing on the first call and whose retry raises a
non-image error, followed by a healthy DWR gage. -/
def c7Gages : List GageRun :=
  [⟨"USGS", "06701900", .imgErr, .othErr⟩, ⟨"DWR", "PLASPLCO", .ok, .ok⟩]

/-- Claim C7 (counterexample): in a cron (non-verbose) run, a USGS gage
whose retry raises an error other than image-not-found escapes both
handlers and aborts the batch — the following DWR gage is never
processed, refuting "no single gage's failure ever aborts the whole
batch". -/
theorem batch_abort_cex :
    runBatch false c7Gages = ([], true) ∧ c7Gages.length = 2 := by
  exact ⟨by decide, by decide⟩

/-- Claim C7 (amended): in a cron batch whose USGS gages never hit the
retry leak (first call image-not-found, retry some other error), no gage
aborts the batch and every gage reaches a terminal status; moreover a
USGS image-not-found is retried exactly once — a second image-not-found
skips, a success on retry stores — any other first-call exception skips,
and from cron any failing known non-USGS gage is skipped.  (In verbose
mode a non-USGS exception propagates by design; during the USGS retry
any non-image exception propagates even from cron.) -/
theorem batch_cron_behavior :
    (∀ gs : List GageRun,
      (∀ g ∈ gs, g.gtype = "USGS" → ¬(g.o1 = .imgErr ∧ g.o2 = .othErr)) →
      (runBatch false gs).2 = false ∧ (runBatch false gs).1.length = gs.length) ∧
    (∀ t i, stepUSGS ⟨t, i, .imgErr, .imgErr⟩ = some .skipped) ∧
    (∀ t i, stepUSGS ⟨t, i, .imgErr, .ok⟩ = some .stored) ∧
    (∀ t i o, stepUSGS ⟨t, i, .othErr, o⟩ = some .skipped) ∧
    (∀ g : GageRun, knownGetter g.gtype g.gid = true →
      stepOther false g = some .stored ∨ stepOther false g = some .skipped) := by
  refine ⟨?_, fun t i => rfl, fun t i => rfl, fun t i o => rfl, ?_⟩
  · intro gs h
    induction gs with
    | nil => exact ⟨rfl, rfl⟩
    | cons g rest ih =>
      have hg := h g (List.mem_cons_self g rest)
      have hrest := ih (fun x hx => h x (List.mem_cons_of_mem g hx))
      obtain ⟨s, hs⟩ :
          ∃ s, (if g.gtype = "USGS" then stepUSGS g else stepOther false g)
            = some s := by
        by_cases ht : g.gtype = "USGS"
        · rw [if_pos ht]
          cases ho1 : g.o1 with
          | ok => exact ⟨.stored, by simp [stepUSGS, ho1]⟩
          | othErr => exact ⟨.skipped, by simp [stepUSGS, ho1]⟩
          | imgErr =>
            cases ho2 : g.o2 with
            | ok => exact ⟨.stored, by simp [stepUSGS, ho1, ho2]⟩
            | imgErr => exact ⟨.skipped, by simp [stepUSGS, ho1, ho2]⟩
            | othErr => exact absurd ⟨ho1, ho2⟩ (hg ht)
        · rw [if_neg ht]
          by_cases hk : knownGetter g.gtype g.gid
          · cases ho1 : g.o1 with
            | ok => exact ⟨.stored, by simp [stepOther, hk, ho1]⟩
            | imgErr => exact ⟨.skipped, by simp [stepOther, hk, ho1]⟩
            | othErr => exact ⟨.skipped, by simp [stepOther, hk, ho1]⟩
          · exact ⟨.skipped, by simp [stepOther, hk]⟩
      simp only [runBatch, hs]
      exact ⟨hrest.1, by simp [hrest.2]⟩
  · intro g hk
    unfold stepOther
    rw [if_pos hk]
    cases g.o1 with
    | ok => exact Or.inl rfl
    | imgErr => exact Or.inr rfl
    | othErr => exact Or.inr rfl

/-- Claim C7 (witness): the amended runner contract on a concrete cron
batch without the retry-leak pattern — one USGS gage that needs exactly
one retry and is then skipped, one failing DWR gage that is skipped —
which completes without aborting. -/
theorem batch_cron_behavior_witness :
    (runBatch false [⟨"USGS", "a", .imgErr, .imgErr⟩, ⟨"DWR", "b", .othErr, .ok⟩]).2
      = false ∧
    (runBatch false [⟨"USGS", "a", .imgErr, .imgErr⟩, ⟨"DWR", "b", .othErr, .ok⟩]).1.length
      = 2 := by
  have h := batch_cron_behavior.1
    [⟨"USGS", "a", .imgErr, .imgErr⟩, ⟨"DWR", "b", .othErr, .ok⟩] (by decide)
  simpa using h

end Rivergraphs

namespace Rivergraphs

/-- A stored record every field of which parses: the value as a float
and the date/time pair with `strptime`. -/
def lineValidB (l : Line) : Bool :=
  (pyFloat? (l.headD "")).isSome &&
    (strptimeDT? (l.getD 1 "") (l.getD 2 "")).isSome

/-- On a list whose elements all succeed, `filterMap` keeps
everything. -/
theorem filterMap_length_of_isSome {α β : Type} (f : α → Option β) :
    ∀ L : List α, (∀ l ∈ L, (f l).isSome = true) →
      (L.filterMap f).length = L.length := by
  intro L
  induction L with
  | nil => intro _; rfl
  | cons a L ih =>
    intro h
    obtain ⟨v, hv⟩ := Option.isSome_iff_exists.mp (h a (List.mem_cons_self a L))
    simp [hv, ih (fun x hx => h x (List.mem_cons_of_mem a hx))]

/-- The PRR read-back loop on a file of fully valid lines: every stage
and timestamp is collected and no diagnostic is printed. -/
theorem get_prr_readback_all_valid :
    ∀ L : List Line, (∀ l ∈ L, lineValidB l = true) →
      get_prr_readback L =
        some (L.filterMap (fun l => pyFloat? (l.headD "")),
              L.filterMap (fun l => strptimeDT? (l.getD 1 "") (l.getD 2 "")),
              0) := by
  intro L
  induction L with
  | nil => intro _; rfl
  | cons l L ih =>
    intro h
    have hl := h l (List.mem_cons_self l L)
    rw [lineValidB, Bool.and_eq_true] at hl
    obtain ⟨v, hv⟩ := Option.isSome_iff_exists.mp hl.1
    obtain ⟨ts, hts⟩ := Option.isSome_iff_exists.mp hl.2
    simp only [List.headD_eq_head?_getD, List.getD_eq_getElem?_getD] at hv hts
    simp [get_prr_readback, hv, hts,
      ih (fun x hx => h x (List.mem_cons_of_mem l hx))]

/-- The file of claim C5's counterexample: one fully valid line followed
by one line whose value field is not a number. -/
def c5File : List Line :=
  [["1.0", "2023-05-01", "07:00:00"], ["x", "2023-05-01", "08:00:00"]]

/-- Claim C5 (counterexample): on a file with one valid line and one
corrupt-value line, `Gage.series` — the repository's full-series reader —
does not skip the corrupt line and logs nothing: `read_csv` leaves the
whole value column unparsed (both entries come back as raw strings,
`Sum.inl`) and the result has 2 entries where the claim demands the 1
valid reading plus one diagnostic. -/
theorem gage_series_cex :
    gage_series c5File =
      some [(⟨2023, 5, 1, 7, 0, 0⟩, Sum.inl "1.0"),
            (⟨2023, 5, 1, 8, 0, 0⟩, Sum.inl "x")] ∧
    (2 : Nat) ≠ 1 := by
  exact ⟨by decide, by decide⟩

/-- Claim C5 (amended): the PRR read-back loop — the reader the claimed
behaviour describes — on a file of valid lines with one corrupt-value
line interposed returns exactly the valid readings (value and timestamp
lists of full length) and prints exactly one corruption diagnostic,
without aborting; `Gage.series` instead returns every line with the
value column left as unparsed strings and no diagnostic. -/
theorem prr_readback_skips (A B : List Line) (c : Line)
    (hA : ∀ l ∈ A, lineValidB l = true) (hB : ∀ l ∈ B, lineValidB l = true)
    (hc : pyFloat? (c.headD "") = none) :
    get_prr_readback (A ++ c :: B) =
      some ((A ++ B).filterMap (fun l => pyFloat? (l.headD "")),
            (A ++ B).filterMap (fun l => strptimeDT? (l.getD 1 "") (l.getD 2 "")),
            1) ∧
    ((A ++ B).filterMap (fun l => pyFloat? (l.headD ""))).length =
      (A ++ B).length := by
  constructor
  · induction A with
    | nil =>
      have hc2 := hc
      simp only [List.headD_eq_head?_getD] at hc2
      simp only [List.nil_append]
      simp [get_prr_readback, hc2, get_prr_readback_all_valid B hB]
    | cons a A ih =>
      have ha := hA a (List.mem_cons_self a A)
      rw [lineValidB, Bool.and_eq_true] at ha
      obtain ⟨v, hv⟩ := Option.isSome_iff_exists.mp ha.1
      obtain ⟨ts, hts⟩ := Option.isSome_iff_exists.mp ha.2
      simp only [List.headD_eq_head?_getD, List.getD_eq_getElem?_getD] at hv hts
      have ih2 := ih (fun x hx => hA x (List.mem_cons_of_mem a hx))
      simp [get_prr_readback, hv, hts, ih2]
  · apply filterMap_length_of_isSome
    intro l hl
    rcases List.mem_append.mp hl with h | h
    · exact (Bool.and_eq_true _ _ |>.mp (by rw [← lineValidB]; exact hA l h)).1
    · exact (Bool.and_eq_true _ _ |>.mp (by rw [← lineValidB]; exact hB l h)).1

/-- Claim C5 (witness): the amended read-back contract on the concrete
two-line file, yielding one reading, one timestamp and one
diagnostic. -/
theorem prr_readback_skips_witness :
    get_prr_readback c5File = some ([1], [⟨2023, 5, 1, 7, 0, 0⟩], 1) := by
  have h := prr_readback_skips [["1.0", "2023-05-01", "07:00:00"]] []
    ["x", "2023-05-01", "08:00:00"] (by decide) (by decide) (by decide)
  exact h.1

end Rivergraphs

namespace Rivergraphs

/-- Sorting-then-deduplicating a concatenation does not depend on the
order of the two halves: both sides are sorted, duplicate-free and hold
the same elements. -/
theorem sortedDedup_comm (x y : List Int) :
    sortedDedup (x ++ y) = sortedDedup (y ++ x) := by
  unfold sortedDedup
  have hs1 : List.Sorted (fun a b : Int => a ≤ b)
      ((List.insertionSort (fun a b => a ≤ b) (x ++ y)).dedup) :=
    List.Pairwise.sublist (List.dedup_sublist _) (List.sorted_insertionSort _ _)
  have hs2 : List.Sorted (fun a b : Int => a ≤ b)
      ((List.insertionSort (fun a b => a ≤ b) (y ++ x)).dedup) :=
    List.Pairwise.sublist (List.dedup_sublist _) (List.sorted_insertionSort _ _)
  have hp : List.Perm
      ((List.insertionSort (fun a b : Int => a ≤ b) (x ++ y)).dedup)
      ((List.insertionSort (fun a b : Int => a ≤ b) (y ++ x)).dedup) :=
    ((List.perm_insertionSort _ _).dedup).trans
      ((List.perm_append_comm.dedup).trans
        ((List.perm_insertionSort _ _).symm.dedup))
  exact List.eq_of_perm_of_sorted hp hs1 hs2

/-- Pointwise anti-symmetry of the aligned subtraction: at every
timestamp, `a - b` is the negation of `b - a`, and both are defined on
exactly the shared timestamps. -/
theorem subAt_antisym (a b : List (Int × Rat)) (t : Int) :
    subAt a b t = (subAt b a t).map (fun p => (p.1, -p.2)) := by
  unfold subAt
  rcases List.lookup t a with _ | x <;> rcases List.lookup t b with _ | y <;> simp

/-- Claim C8: the virtual-gage difference recipe is anti-symmetric —
`difference a b` is the pointwise negation of `difference b a` on the
shared timestamp set.  The `nodupKeys` hypotheses delimit the inputs on
which lookup-based alignment is faithful to pandas (duplicate index
labels make pandas raise instead). -/
theorem difference_antisym (a b : List (Int × Rat))
    (ha : nodupKeys a) (hb : nodupKeys b) :
    difference a b = (difference b a).map (fun p => (p.1, -p.2)) := by
  unfold difference
  rw [sortedDedup_comm, List.map_filterMap,
    show subAt a b = fun t => (subAt b a t).map (fun p => (p.1, -p.2)) from
      funext (subAt_antisym a b)]

/-- Claim C8 (witness): anti-symmetry at two concrete duplicate-free
series sharing exactly one timestamp. -/
theorem difference_antisym_witness :
    difference [((0 : Int), (5 : Rat)), (60, 7)] [((60 : Int), (2 : Rat)), (120, 3)] =
      (difference [((60 : Int), (2 : Rat)), (120, 3)]
        [((0 : Int), (5 : Rat)), (60, 7)]).map (fun p => (p.1, -p.2)) :=
  difference_antisym _ _ (by decide) (by decide)

end Rivergraphs

namespace Rivergraphs

/-- Downstream-flow input of the claim-C1 counterexample: one reading
per hour (timestamps in minutes) with values 1, 1, 100, 350. -/
def c1Pgq : List (Int × Rat) := [(5820, 1), (5880, 1), (5940, 100), (6000, 350)]

/-- Reservoir-level input of the claim-C1 counterexample: constant, so
the inflow estimate equals the downstream flow. -/
def c1Braf : List (Int × Rat) :=
  [(5760, 0), (5820, 0), (5880, 0), (5940, 0), (6000, 0)]

/-- Claim C1 (counterexample): on these inputs the estimated-inflow
series is `[(97, 1), (98, 1), (99, 100)]` — the outlier filter uses the
median 50.5 of the series *before* dropping, so 350 is removed but 100
survives, and 100 exceeds four times the returned series' own median 1.
The claim's "no point whose value exceeds 4 times the median of the
result series itself" is false on the code. -/
theorem nsv_result_median_cex :
    ((99 : Int), (100 : Rat)) ∈ get_nsv_series c1Pgq c1Braf 104 ∧
    median ((get_nsv_series c1Pgq c1Braf 104).map (fun p => p.2)) = some 1 ∧
    ¬((100 : Rat) ≤ 4 * 1) := by
  exact ⟨by decide, by decide, by decide⟩

/-- Claim C1 (amended): every point of the estimated-inflow series is
strictly newer than seven days before the run date `today` (not before
the latest *input* timestamp), and its value is strictly below four
times the median of the seven-day-clipped series computed *before* the
outlier drop (not the returned series' own median). -/
theorem nsv_window_median_bound (pgq braf : List (Int × Rat))
    (today t : Int) (v : Rat)
    (h : (t, v) ∈ get_nsv_series pgq braf today) :
    today - (PLOT_DAYS : Int) * 24 < t ∧
    ∃ m, nsvMedian pgq braf today = some m ∧ v < 4 * m := by
  unfold get_nsv_series at h
  cases hm : nsvMedian pgq braf today with
  | none => rw [hm] at h; simp at h
  | some m =>
    rw [hm, List.mem_filterMap] at h
    obtain ⟨p, hp, hpe⟩ := h
    cases hov : p.2 with
    | none => rw [hov] at hpe; simp at hpe
    | some w =>
      rw [hov] at hpe
      simp only [Option.some_bind] at hpe
      by_cases hw : w < 4 * m
      · rw [if_pos hw] at hpe
        have hpt : p.1 = t ∧ w = v := by
          simpa using hpe
        obtain ⟨hpt1, hpt2⟩ := hpt
        constructor
        · have hmem : today - (PLOT_DAYS : Int) * 24 < p.1 := by
            have hp2 := hp
            simp only [nsvClipped, List.mem_filter, decide_eq_true_eq] at hp2
            exact hp2.2
          rw [← hpt1]
          exact hmem
        · exact ⟨m, rfl, hpt2 ▸ hw⟩
      · rw [if_neg hw] at hpe
        simp at hpe

/-- Claim C1 (witness): the amended bound applied at the point `(97, 1)`
of the concrete estimated-inflow series. -/
theorem nsv_window_median_bound_witness :
    (104 : Int) - (PLOT_DAYS : Int) * 24 < 97 ∧
    ∃ m, nsvMedian c1Pgq c1Braf 104 = some m ∧ (1 : Rat) < 4 * m :=
  nsv_window_median_bound c1Pgq c1Braf 104 97 1 (by decide)

end Rivergraphs
